import Mathlib

/-
Verification of the WinFuse kernel core (src/winfuse/fuse.c and
src/winfuse/proto.c): a shallow embedding of the transact engine, the
device-init routine and the protocol encoders, with theorems checking the
specification's claims against it.

Machine integers are modelled as Nat; buffer contents are modelled as
structured records carrying the fields the C code writes.  External
collaborators (the fsext provider, FuseContextProcess, the cancellable
wait) are oracle parameters so that the theorems hold for every possible
behaviour of the environment.
-/

namespace WinFuse

/-- Native status codes used by the transact engine (NTSTATUS values in the
source).  `other n` stands for any further status with raw value `n`. -/
inductive NtStatus where
  | success
  | invalidParameter
  | bufferTooSmall
  | cancelled
  | accessDenied
  | timeout
  | threadIsTerminating
  | other (n : Nat)
deriving DecidableEq, Repr

/-- NT_SUCCESS: a status is a success when its signed 32-bit value is
nonnegative.  STATUS_TIMEOUT (0x102) is success-class; STATUS_CANCELLED,
STATUS_ACCESS_DENIED, STATUS_THREAD_IS_TERMINATING and the two validation
errors are error-class. -/
def ntSuccess : NtStatus → Bool
  | .success => true
  | .timeout => true
  | .other n => decide (n < 2 ^ 31)
  | _ => false

/-- (UINT32)-1, the access-denied sentinel stored in Instance->VersionMajor. -/
def uint32Max : Nat := 4294967295

/-- FUSE protocol opcodes used by the core (FUSE_PROTO_OPCODE_* in proto.h). -/
def FUSE_PROTO_OPCODE_LOOKUP : Nat := 1

def FUSE_PROTO_OPCODE_FORGET : Nat := 2

def FUSE_PROTO_OPCODE_GETATTR : Nat := 3

def FUSE_PROTO_OPCODE_OPEN : Nat := 14

def FUSE_PROTO_OPCODE_INIT : Nat := 26

def FUSE_PROTO_OPCODE_OPENDIR : Nat := 27

def FUSE_PROTO_OPCODE_BATCH_FORGET : Nat := 48

/-- FUSE protocol version pair sent by FuseProtoSendInit (FUSE_PROTO_VERSION
and FUSE_PROTO_MINOR_VERSION in proto.h; standard FUSE 7.x). -/
def FUSE_PROTO_VERSION : Nat := 7

def FUSE_PROTO_MINOR_VERSION : Nat := 27

/-- Wire-format size constants (FUSE_PROTO_REQ_HEADER_SIZE,
FUSE_PROTO_RSP_HEADER_SIZE, FUSE_PROTO_REQ_SIZEMIN and the per-opcode
FUSE_PROTO_REQ_SIZE(x) macros of proto.h, which is not among the given
sources).  The development is parameterized over them, so every theorem
holds for the actual values of the header. -/
structure ProtoSizes where
  reqHeaderSize : Nat
  rspHeaderSize : Nat
  reqSizeMin : Nat
  initSize : Nat
  lookupSize : Nat
  forgetSize : Nat
  batchForgetSize : Nat
  forgetOneSize : Nat
  getattrSize : Nat
  openSize : Nat
deriving DecidableEq, Repr

/-- Opcode-specific request payload written after the request header. -/
inductive ReqPayload where
  | empty
  | initIn (major minor maxReadahead flags : Nat)
  | lookupName (bytes : List Nat)
  | forgetIn (nlookup : Nat)
  | batchForgetIn (count : Nat) (items : List (Nat × Nat))
  | openIn (flags : Nat)
deriving DecidableEq, Repr

/-- FUSE request wire message: header (len, opcode, unique, nodeid, uid,
gid, pid) followed by the opcode-specific payload. -/
structure FuseReq where
  len : Nat
  opcode : Nat
  unique : Nat
  nodeid : Nat
  uid : Nat
  gid : Nat
  pid : Nat
  payload : ReqPayload
deriving DecidableEq, Repr

/-- The request buffer after RtlZeroMemory of the header and before any
fill routine ran. -/
def zeroReq : FuseReq :=
  { len := 0, opcode := 0, unique := 0, nodeid := 0, uid := 0, gid := 0,
    pid := 0, payload := .empty }

/-- FUSE response wire message header (len, error, unique). -/
structure FuseRsp where
  len : Nat
  error : Int
  unique : Nat
deriving DecidableEq, Repr

/-- Internal request admitted from the host framework
(FSP_FSCTL_TRANSACT_REQ; only Kind and Hint are read by fuse.c). -/
structure IntReq where
  kind : Nat
  hint : Nat
deriving DecidableEq, Repr, Inhabited

/-- Internal response forwarded to the host framework
(FSP_FSCTL_TRANSACT_RSP; the fields fuse.c reads or writes). -/
structure IntRsp where
  kind : Nat
  hint : Nat
  status : NtStatus
deriving DecidableEq, Repr

/-- Operation context (FUSE_CONTEXT): the fields the given sources read or
write.  `id` is the context's address identity, used as the FUSE `unique`
correlation ID. -/
structure FuseContext where
  id : Nat
  origUid : Nat
  origGid : Nat
  origPid : Nat
  ino : Nat
  lookupNameBytes : List Nat
  grantedAccess : Nat
  forgetList : List Nat
  hasInternalRequest : Bool
  internalResponse : IntRsp
deriving DecidableEq, Repr

instance : Inhabited FuseContext :=
  ⟨{ id := 0, origUid := 0, origGid := 0, origPid := 0, ino := 0,
     lookupNameBytes := [], grantedAccess := 0, forgetList := [],
     hasInternalRequest := false,
     internalResponse := { kind := 0, hint := 0, status := .success } }⟩

/-- FuseProtoInitRequest: stamps the request header with len, opcode, the
context's identity as `unique`, nodeid, and the origin uid/gid/pid. -/
def FuseProtoInitRequest (ctx : FuseContext) (len opcode nodeid : Nat) : FuseReq :=
  { len := len, opcode := opcode, unique := ctx.id, nodeid := nodeid,
    uid := ctx.origUid, gid := ctx.origGid, pid := ctx.origPid,
    payload := .empty }

/-- Request-emitting half of FuseProtoSendInit (the code before coro_yield). -/
def FuseProtoSendInitFill (sz : ProtoSizes) (ctx : FuseContext) : FuseReq :=
  { FuseProtoInitRequest ctx sz.initSize FUSE_PROTO_OPCODE_INIT 0 with
    payload := .initIn FUSE_PROTO_VERSION FUSE_PROTO_MINOR_VERSION 0 0 }

/-- Request-emitting half of FuseProtoSendLookup (the code before
coro_yield): header stamped with the lookup size plus name length plus one
and the parent inode, then the name bytes and a terminating NUL. -/
def FuseProtoSendLookupFill (sz : ProtoSizes) (ctx : FuseContext) : FuseReq :=
  { FuseProtoInitRequest ctx (sz.lookupSize + ctx.lookupNameBytes.length + 1)
      FUSE_PROTO_OPCODE_LOOKUP ctx.ino with
    payload := .lookupName (ctx.lookupNameBytes ++ [0]) }

/-- Modelled from the spec: the callers of FuseProtoSendLookup (in
context.c, not among the given sources) only hand it names for which the
total request length fits in the minimum request size; FuseProtoSendLookup
asserts exactly this bound (ASSERT(FUSE_PROTO_REQ_SIZEMIN >= len)). -/
def LookupNameInBounds (sz : ProtoSizes) (ctx : FuseContext) : Prop :=
  sz.lookupSize + ctx.lookupNameBytes.length + 1 ≤ sz.reqSizeMin

/-- FuseProtoFillForget: pops the next inode off the context's forget list
(FuseCacheForgetNextItem; the list is non-empty by the routine's ASSERT)
and emits a FORGET request for it with nlookup 1. -/
def FuseProtoFillForget (sz : ProtoSizes) (ctx : FuseContext) :
    FuseReq × FuseContext :=
  match ctx.forgetList with
  | [] =>
      ({ FuseProtoInitRequest ctx sz.forgetSize FUSE_PROTO_OPCODE_FORGET 0 with
         payload := .forgetIn 1 }, ctx)
  | ino :: rest =>
      ({ FuseProtoInitRequest ctx sz.forgetSize FUSE_PROTO_OPCODE_FORGET ino with
         payload := .forgetIn 1 },
       { ctx with forgetList := rest })

/-- The pointer walk of FuseProtoFillBatchForget: while a tuple slot
remains before EndP and the forget list is non-empty, write the next
(nodeid, nlookup=1) tuple.  Returns the tuples written and the remaining
list. -/
def batchForgetLoop : Nat → List Nat → List (Nat × Nat) × List Nat
  | 0, l => ([], l)
  | _ + 1, [] => ([], [])
  | slots + 1, ino :: rest =>
      let r := batchForgetLoop slots rest
      ((ino, 1) :: r.1, r.2)

/-- Number of forget-one tuple slots between the batch_forget request size
and FUSE_PROTO_REQ_SIZEMIN: the count of pointer positions P strictly below
EndP in FuseProtoFillBatchForget's loop. -/
def batchForgetCapacity (sz : ProtoSizes) : Nat :=
  (sz.reqSizeMin - sz.batchForgetSize + sz.forgetOneSize - 1) / sz.forgetOneSize

/-- FuseProtoFillBatchForget: packs (nodeid, nlookup=1) tuples from the
forget list until the slots up to FUSE_PROTO_REQ_SIZEMIN are exhausted or
the list is, sets len to the bytes written and count to the tuple count. -/
def FuseProtoFillBatchForget (sz : ProtoSizes) (ctx : FuseContext) :
    FuseReq × FuseContext :=
  let r := batchForgetLoop (batchForgetCapacity sz) ctx.forgetList
  ({ FuseProtoInitRequest ctx (sz.batchForgetSize + r.1.length * sz.forgetOneSize)
       FUSE_PROTO_OPCODE_BATCH_FORGET 0 with
     payload := .batchForgetIn r.1.length r.1 },
   { ctx with forgetList := r.2 })

/-- Request-emitting half of FuseProtoSendGetattr. -/
def FuseProtoSendGetattrFill (sz : ProtoSizes) (ctx : FuseContext) : FuseReq :=
  FuseProtoInitRequest ctx sz.getattrSize FUSE_PROTO_OPCODE_GETATTR ctx.ino

/-- FILE_READ_DATA and FILE_WRITE_DATA access-mask bits. -/
def FILE_READ_DATA : Nat := 1

def FILE_WRITE_DATA : Nat := 2

/-- Request-emitting half of FuseProtoSendOpen: the switch on
GrantedAccess & (FILE_READ_DATA | FILE_WRITE_DATA) choosing the POSIX
open flags. -/
def FuseProtoSendOpenFill (sz : ProtoSizes) (ctx : FuseContext) : FuseReq :=
  let masked := ctx.grantedAccess &&& (FILE_READ_DATA ||| FILE_WRITE_DATA)
  let flags :=
    if masked = FILE_WRITE_DATA then 1
    else if masked = FILE_READ_DATA ||| FILE_WRITE_DATA then 2
    else 0
  { FuseProtoInitRequest ctx sz.openSize FUSE_PROTO_OPCODE_OPEN ctx.ino with
    payload := .openIn flags }

/-- Request-emitting half of FuseProtoSendOpendir. -/
def FuseProtoSendOpendirFill (sz : ProtoSizes) (ctx : FuseContext) : FuseReq :=
  FuseProtoInitRequest ctx sz.openSize FUSE_PROTO_OPCODE_OPENDIR ctx.ino

/-- POSIX attribute record from the wire (FUSE_PROTO_ATTR; the fields
FuseAttrToFileInfo reads). -/
structure FuseProtoAttr where
  ino : Nat
  size : Nat
  atime : Nat
  mtime : Nat
  ctime : Nat
  atimensec : Nat
  mtimensec : Nat
  ctimensec : Nat
  mode : Nat
deriving DecidableEq, Repr

/-- Host file information record (FSP_FSCTL_FILE_INFO; the fields
FuseAttrToFileInfo writes).  Times are FILETIME values as Nat. -/
structure FileInfo where
  fileAttributes : Nat
  reparseTag : Nat
  fileSize : Nat
  allocationSize : Nat
  creationTime : Nat
  lastAccessTime : Nat
  lastWriteTime : Nat
  changeTime : Nat
  indexNumber : Nat
  hardLinks : Nat
  eaSize : Nat
deriving DecidableEq, Repr

/-- Windows file-attribute and reparse-tag constants. -/
def FILE_ATTRIBUTE_DIRECTORY : Nat := 16

def FILE_ATTRIBUTE_REPARSE_POINT : Nat := 1024

def IO_REPARSE_TAG_NFS : Nat := 2147483668

def IO_REPARSE_TAG_SYMLINK : Nat := 2684354572

/-- Volume parameters (FSP_FSCTL_VOLUME_PARAMS; the fields the given
sources read or write). -/
structure VolumeParams where
  caseSensitiveSearch : Bool
  casePreservedNames : Bool
  persistentAcls : Bool
  reparsePoints : Bool
  reparsePointsAccessCheck : Bool
  namedStreams : Bool
  readOnlyVolume : Bool
  postCleanupWhenModifiedOnly : Bool
  passQueryDirectoryFileName : Bool
  deviceControl : Bool
  directoryMarkerAsNextOffset : Bool
  sectorSize : Nat
  sectorsPerAllocationUnit : Nat
deriving DecidableEq, Repr

/-- FuseAttrToFileInfo: translate a POSIX attribute record to host file
information.  `u2f` is FuseUnixTimeToFileTime (defined outside the given
sources), taken as a parameter: seconds and nanoseconds to a FILETIME. -/
def FuseAttrToFileInfo (u2f : Nat → Nat → Nat) (vp : VolumeParams)
    (attr : FuseProtoAttr) : FileInfo :=
  let allocationUnit := vp.sectorSize * vp.sectorsPerAllocationUnit
  let fmt := attr.mode &&& 61440
  let fa :=
    if fmt = 16384 then (FILE_ATTRIBUTE_DIRECTORY, 0)
    else if fmt = 4096 ∨ fmt = 8192 ∨ fmt = 24576 ∨ fmt = 49152 then
      (FILE_ATTRIBUTE_REPARSE_POINT, IO_REPARSE_TAG_NFS)
    else if fmt = 40960 then
      (FILE_ATTRIBUTE_REPARSE_POINT, IO_REPARSE_TAG_SYMLINK)
    else (0, 0)
  let fileSize := attr.size
  let allocationSize := (fileSize + allocationUnit - 1) / allocationUnit * allocationUnit
  let changeTime := u2f attr.ctime attr.ctimensec
  { fileAttributes := fa.1
    reparseTag := fa.2
    fileSize := fileSize
    allocationSize := allocationSize
    creationTime := changeTime
    lastAccessTime := u2f attr.atime attr.atimensec
    lastWriteTime := u2f attr.mtime attr.mtimensec
    changeTime := changeTime
    indexNumber := attr.ino
    hardLinks := 0
    eaSize := 0 }

/-- Modelled from the spec: the I/O queue (ioq.c is not among the given
sources).  A pending FIFO of contexts awaiting send and a processing map
keyed by correlation ID of contexts awaiting a response (spec section 4.4). -/
structure FuseIoq where
  pending : List FuseContext
  processing : List (Nat × FuseContext)
deriving DecidableEq, Repr

/-- Modelled from the spec: FuseIoqPostPending appends to the pending FIFO. -/
def FuseIoqPostPending (ioq : FuseIoq) (ctx : FuseContext) : FuseIoq :=
  { ioq with pending := ioq.pending ++ [ctx] }

/-- Modelled from the spec: FuseIoqNextPending pops the head of the pending
FIFO, or returns none leaving the queue unchanged. -/
def FuseIoqNextPending (ioq : FuseIoq) : Option FuseContext × FuseIoq :=
  match ioq.pending with
  | [] => (none, ioq)
  | c :: rest => (some c, { ioq with pending := rest })

/-- Modelled from the spec: FuseIoqStartProcessing inserts a context into
the processing map keyed by its correlation ID. -/
def FuseIoqStartProcessing (ioq : FuseIoq) (ctx : FuseContext) : FuseIoq :=
  { ioq with processing := (ctx.id, ctx) :: ioq.processing }

/-- Modelled from the spec: FuseIoqEndProcessing removes and returns the
context with the given correlation ID, or returns none leaving the queue
unchanged. -/
def FuseIoqEndProcessing (ioq : FuseIoq) (unique : Nat) :
    Option FuseContext × FuseIoq :=
  match ioq.processing.find? (fun p => p.1 = unique) with
  | none => (none, ioq)
  | some p =>
      (some p.2,
       { ioq with processing := ioq.processing.eraseP (fun q => q.1 = unique) })

/-- Result of FuseContextCreate: a live context, or a status-only context
(a tagged pointer carrying an early-failure status). -/
inductive CtxOrStatus where
  | live (ctx : FuseContext)
  | statusOnly (status : NtStatus)
deriving DecidableEq, Repr

/-- Oracle environment for FuseDeviceTransact over an abstract cache type
`χ`: the behaviour of the external collaborators (FuseContextProcess from
context.c, FspFsextProviderTransact, FsRtlCancellableWaitForSingleObject,
FuseContextCreate) during one call.  Theorems quantify over it, so they
hold for every behaviour of these collaborators. -/
structure TransactEnv (χ : Type) where
  processRsp : FuseContext → FuseRsp → χ → Bool × FuseContext × χ
  processReq : FuseContext → FuseReq → Nat → χ → Bool × FuseContext × χ × FuseReq
  hostPush : IntRsp → NtStatus
  hostPull : NtStatus × Option IntReq
  waitInit : NtStatus
  versionAfterWait : Nat
  contextCreate : IntReq → CtxOrStatus

/-- Per-volume instance state read and written by FuseDeviceTransact. -/
structure Instance where
  ioq : FuseIoq
  versionMajor : Nat
deriving DecidableEq, Repr

/-- Parameters of one transact call: the two buffer lengths and the
response carried by the input buffer (meaningful only when the input
buffer is non-empty). -/
structure TransactIn where
  inputBufferLength : Nat
  outputBufferLength : Nat
  response : FuseRsp
deriving DecidableEq, Repr

/-- Observable outcome of one transact call: the returned status, the
instance and cache afterwards, Irp->IoStatus.Information, and the request
written into the output buffer (none when the buffer was never touched). -/
structure TransactOut (χ : Type) where
  result : NtStatus
  inst : Instance
  cache : χ
  info : Nat
  request : Option FuseReq

/-- Parameter validation at the top of FuseDeviceTransact: a non-empty
input buffer must hold a response whose len lies in
[FUSE_PROTO_RSP_HEADER_SIZE, InputBufferLength]; a non-empty output buffer
must be at least FUSE_PROTO_REQ_SIZEMIN long. -/
def transactValidate (sz : ProtoSizes) (tin : TransactIn) : Option NtStatus :=
  if tin.inputBufferLength ≠ 0 ∧
      (tin.inputBufferLength < sz.rspHeaderSize ∨
       tin.response.len < sz.rspHeaderSize ∨
       tin.inputBufferLength < tin.response.len) then
    some .invalidParameter
  else if tin.outputBufferLength ≠ 0 ∧ tin.outputBufferLength < sz.reqSizeMin then
    some .bufferTooSmall
  else
    none

/-- Response half-step of FuseDeviceTransact: look up the context by the
response's unique; if found, resume it with the response, then re-post it
(Continue), destroy it (self-generated), or forward its internal response
and destroy it.  Returns the new instance and cache, or, when the forward
fails, the early-exit status together with the state at that point. -/
def transactResponseHalf {χ : Type} (env : TransactEnv χ) (inst : Instance)
    (cache : χ) (rsp : FuseRsp) :
    Except (NtStatus × Instance × χ) (Instance × χ) :=
  match FuseIoqEndProcessing inst.ioq rsp.unique with
  | (none, ioq1) => .ok ({ inst with ioq := ioq1 }, cache)
  | (some ctx, ioq1) =>
      let pr := env.processRsp ctx rsp cache
      if pr.1 then
        .ok ({ inst with ioq := FuseIoqPostPending ioq1 pr.2.1 }, pr.2.2)
      else if !pr.2.1.hasInternalRequest then
        .ok ({ inst with ioq := ioq1 }, pr.2.2)
      else
        let r := env.hostPush pr.2.1.internalResponse
        if ntSuccess r then .ok ({ inst with ioq := ioq1 }, pr.2.2)
        else .error (r, { inst with ioq := ioq1 }, pr.2.2)

/-- Dispatch on the outcome of resuming a context in the request half-step
of FuseDeviceTransact: Continue starts processing; a status-only context
synthesizes an internal response from the pulled internal request; a
terminal context with no internal request is re-posted (non-empty forget
list, FORGET/BATCH_FORGET hint) or destroyed; a terminal context with an
internal request forwards its internal response and is destroyed. -/
def transactRequestDispatch {χ : Type} (env : TransactEnv χ) (inst : Instance)
    (ioq1 : FuseIoq) (cache : χ) (co : Bool) (statusOnly : Option NtStatus)
    (pulled : Option IntReq) (ctx : FuseContext) (req : FuseReq) :
    TransactOut χ :=
  if co then
    { result := .success, inst := { inst with ioq := FuseIoqStartProcessing ioq1 ctx },
      cache := cache, info := req.len, request := some req }
  else
    match statusOnly with
    | some s =>
        let ir := pulled.getD default
        let r := env.hostPush { kind := ir.kind, hint := ir.hint, status := s }
        if ntSuccess r then
          { result := .success, inst := { inst with ioq := ioq1 }, cache := cache,
            info := req.len, request := some req }
        else
          { result := r, inst := { inst with ioq := ioq1 }, cache := cache,
            info := 0, request := some req }
    | none =>
        if !ctx.hasInternalRequest then
          if (ctx.internalResponse.hint = FUSE_PROTO_OPCODE_FORGET ∨
              ctx.internalResponse.hint = FUSE_PROTO_OPCODE_BATCH_FORGET) then
            if ctx.forgetList ≠ [] then
              { result := .success,
                inst := { inst with ioq := FuseIoqPostPending ioq1 ctx },
                cache := cache, info := req.len, request := some req }
            else
              { result := .success, inst := { inst with ioq := ioq1 },
                cache := cache, info := req.len, request := some req }
          else
            { result := .success, inst := { inst with ioq := ioq1 },
              cache := cache, info := req.len, request := some req }
        else
          let r := env.hostPush ctx.internalResponse
          if ntSuccess r then
            { result := .success, inst := { inst with ioq := ioq1 },
              cache := cache, info := req.len, request := some req }
          else
            { result := r, inst := { inst with ioq := ioq1 }, cache := cache,
              info := 0, request := some req }

/-- The pending-empty path of the request half-step, after the version
major has been determined: access-denied on the all-ones sentinel, else
pull a new internal request from the host framework, create a context for
it and resume it. -/
def transactRequestFresh {χ : Type} (env : TransactEnv χ) (inst : Instance)
    (cache : χ) (outLen : Nat) (vm : Nat) : TransactOut χ :=
  if vm = uint32Max then
    { result := .accessDenied, inst := inst, cache := cache, info := 0,
      request := some zeroReq }
  else if !ntSuccess env.hostPull.1 then
    { result := env.hostPull.1, inst := inst, cache := cache, info := 0,
      request := some zeroReq }
  else
    match env.hostPull.2 with
    | none =>
        { result := .success, inst := inst, cache := cache, info := 0,
          request := some zeroReq }
    | some ir =>
        match env.contextCreate ir with
        | .statusOnly s =>
            transactRequestDispatch env inst inst.ioq cache false (some s)
              (some ir) default zeroReq
        | .live ctx0 =>
            let ctx := { ctx0 with hasInternalRequest := true }
            let pr := env.processReq ctx zeroReq outLen cache
            transactRequestDispatch env inst inst.ioq pr.2.2.1 pr.1 none none
              pr.2.1 pr.2.2.2

/-- Request half-step of FuseDeviceTransact: zero the request header and
pop a pending context; if none, run the pending-empty path (wait for INIT
when version major is still 0, with timeout and thread-termination
surfacing as cancelled); finally resume the context with the output buffer
and dispatch on the outcome. -/
def transactRequestHalf {χ : Type} (env : TransactEnv χ) (inst : Instance)
    (cache : χ) (outLen : Nat) : TransactOut χ :=
  if outLen = 0 then
    { result := .success, inst := inst, cache := cache, info := 0,
      request := none }
  else
    match FuseIoqNextPending inst.ioq with
    | (some ctx, ioq1) =>
        let pr := env.processReq ctx zeroReq outLen cache
        transactRequestDispatch env inst ioq1 pr.2.2.1
          pr.1 none none pr.2.1 pr.2.2.2
    | (none, _) =>
        if inst.versionMajor = 0 then
          let r0 := env.waitInit
          let r := if r0 = .timeout ∨ r0 = .threadIsTerminating then .cancelled else r0
          if !ntSuccess r then
            { result := r, inst := inst, cache := cache, info := 0,
              request := some zeroReq }
          else
            transactRequestFresh env inst cache outLen env.versionAfterWait
        else
          transactRequestFresh env inst cache outLen inst.versionMajor

/-- Body of FuseDeviceTransact after parameter validation: the response
half-step (input buffer present), then the request half-step (output
buffer present). -/
def transactBody {χ : Type} (env : TransactEnv χ) (inst : Instance)
    (cache : χ) (tin : TransactIn) : TransactOut χ :=
  if tin.inputBufferLength ≠ 0 then
    match transactResponseHalf env inst cache tin.response with
    | .error e =>
        { result := e.1, inst := e.2.1, cache := e.2.2, info := 0, request := none }
    | .ok (inst1, cache1) =>
        transactRequestHalf env inst1 cache1 tin.outputBufferLength
  else
    transactRequestHalf env inst cache tin.outputBufferLength

/-- FuseDeviceTransact: validate parameters, then run the response
half-step followed by the request half-step. -/
def FuseDeviceTransact {χ : Type} (sz : ProtoSizes) (env : TransactEnv χ)
    (inst : Instance) (cache : χ) (tin : TransactIn) : TransactOut χ :=
  match transactValidate sz tin with
  | some r =>
      { result := r, inst := inst, cache := cache, info := 0, request := none }
  | none => transactBody env inst cache tin

/-- Events recorded by the FuseDeviceInit model, in the order the source
performs the corresponding calls. -/
inductive InitEvent where
  | ioqCreated
  | cacheCreated
  | opGuardLockInitialized
  | initEventInitialized
  | fileTableInitialized
  | initPosted
  | cacheDeleted
  | ioqDeleted
deriving DecidableEq, Repr

/-- Oracle environment for FuseDeviceInit: the statuses returned by
FuseIoqCreate, FuseCacheCreate (which receives the case-insensitivity
flag) and FuseProtoPostInit. -/
structure InitEnv where
  ioqCreate : NtStatus
  cacheCreate : Bool → NtStatus
  postInit : NtStatus

/-- The volume-parameter assignment block at the top of FuseDeviceInit:
force the fields required for FUSE operation, leaving the others as the
caller set them. -/
def fuseNormalizeVolumeParams (vp : VolumeParams) : VolumeParams :=
  { vp with
    caseSensitiveSearch := true
    casePreservedNames := true
    persistentAcls := true
    reparsePoints := true
    reparsePointsAccessCheck := false
    namedStreams := false
    readOnlyVolume := false
    postCleanupWhenModifiedOnly := true
    passQueryDirectoryFileName := true
    deviceControl := true
    directoryMarkerAsNextOffset := true }

/-- FuseDeviceInit: force the volume parameters to the fixed values, create
the IOQ, create the Cache, set the instance fields (op-guard lock, IOQ,
Cache, init event), bring up the file table, post the internal INIT
context; on failure delete whatever was created (Cache before IOQ) and
return the failing status.  Returns the status, the normalized volume
parameters and the ordered event trace. -/
def FuseDeviceInit (env : InitEnv) (vp : VolumeParams) :
    NtStatus × VolumeParams × List InitEvent :=
  if !ntSuccess env.ioqCreate then
    (env.ioqCreate, fuseNormalizeVolumeParams vp, [])
  else if !ntSuccess
      (env.cacheCreate (!(fuseNormalizeVolumeParams vp).caseSensitiveSearch)) then
    (env.cacheCreate (!(fuseNormalizeVolumeParams vp).caseSensitiveSearch),
     fuseNormalizeVolumeParams vp, [.ioqCreated, .ioqDeleted])
  else if !ntSuccess env.postInit then
    (env.postInit, fuseNormalizeVolumeParams vp,
     [.ioqCreated, .cacheCreated, .opGuardLockInitialized,
      .initEventInitialized, .fileTableInitialized, .cacheDeleted, .ioqDeleted])
  else
    (.success, fuseNormalizeVolumeParams vp,
     [.ioqCreated, .cacheCreated, .opGuardLockInitialized,
      .initEventInitialized, .fileTableInitialized, .initPosted])

/-- Modelled from the spec: one request half-step of a self-generated
FORGET/BATCH_FORGET context.  FuseContextProcess (context.c, not among the
given sources) dispatches the context to FuseProtoFillBatchForget or
FuseProtoFillForget according to its hint and returns Continue = false;
fuse.c (lines 279-291) then re-posts the context to pending when its
forget list is still non-empty and destroys it otherwise.  Returns the
emitted request and the re-posted context, or none when destroyed. -/
def forgetRequestHalfStep (sz : ProtoSizes) (ctx : FuseContext) :
    FuseReq × Option FuseContext :=
  let fr :=
    if ctx.internalResponse.hint = FUSE_PROTO_OPCODE_BATCH_FORGET then
      FuseProtoFillBatchForget sz ctx
    else
      FuseProtoFillForget sz ctx
  (fr.1, if fr.2.forgetList ≠ [] then some fr.2 else none)

/-- Number of request half-steps a self-generated forget context takes
until it is destroyed, or none when the fuel runs out first. -/
def forgetDrainSteps (sz : ProtoSizes) : Nat → FuseContext → Option Nat
  | 0, _ => none
  | fuel + 1, ctx =>
      match (forgetRequestHalfStep sz ctx).2 with
      | none => some 1
      | some ctx1 => Option.map (· + 1) (forgetDrainSteps sz fuel ctx1)

/-- Plausible concrete protocol sizes, used to evaluate the theorems on
concrete inputs. -/
def sampleSizes : ProtoSizes :=
  { reqHeaderSize := 40, rspHeaderSize := 16, reqSizeMin := 272,
    initSize := 56, lookupSize := 40, forgetSize := 48,
    batchForgetSize := 48, forgetOneSize := 16, getattrSize := 56,
    openSize := 48 }

/-- A concrete context used to evaluate the theorems. -/
def sampleCtx : FuseContext :=
  { id := 1000, origUid := 1, origGid := 2, origPid := 3, ino := 7,
    lookupNameBytes := [102, 111, 111], grantedAccess := 1,
    forgetList := [11, 12, 13], hasInternalRequest := false,
    internalResponse :=
      { kind := 0, hint := FUSE_PROTO_OPCODE_BATCH_FORGET, status := .success } }

/-- A concrete oracle environment used to evaluate the theorems. -/
def sampleEnv : TransactEnv Nat :=
  { processRsp := fun c _ k => (false, c, k)
    processReq := fun c r _ k =>
      (true, c, k, { r with len := 64, opcode := FUSE_PROTO_OPCODE_GETATTR,
                            unique := c.id })
    hostPush := fun _ => .success
    hostPull := (.success, none)
    waitInit := .timeout
    versionAfterWait := 7
    contextCreate := fun _ => .statusOnly .accessDenied }

/-- A concrete instance state used to evaluate the theorems. -/
def sampleInst : Instance :=
  { ioq := { pending := [], processing := [] }, versionMajor := 0 }

/-- The tuple-packing loop of FuseProtoFillBatchForget takes the first
`slots` list entries and leaves the rest. -/
theorem batchForgetLoop_eq (n : Nat) (l : List Nat) :
    batchForgetLoop n l = ((l.take n).map (fun i => (i, 1)), l.drop n) := by
  induction n generalizing l with
  | zero => simp [batchForgetLoop]
  | succ n ih =>
      cases l with
      | nil => simp [batchForgetLoop]
      | cons a rest => simp [batchForgetLoop, ih]

/-- Rounding up to a multiple: `(s + au - 1) / au * au` is the least
multiple of `au` that is at least `s`. -/
theorem roundUpMultiple (s au : Nat) (h : 0 < au) :
    (s + au - 1) / au * au % au = 0 ∧ s ≤ (s + au - 1) / au * au ∧
      (s + au - 1) / au * au < s + au := by
  refine ⟨Nat.mul_mod_left _ _, ?_, ?_⟩
  · rcases Nat.eq_zero_or_pos s with hs | hs
    · subst hs; exact Nat.zero_le _
    · have he : s + au - 1 = (s - 1) + au := by omega
      rw [he, Nat.add_div_right _ h]
      have key : s - 1 < ((s - 1) / au + 1) * au :=
        (Nat.div_lt_iff_lt_mul h).mp (Nat.lt_succ_self _)
      have key2 := Nat.succ_le_of_lt key
      exact le_trans (by omega) key2
  · have h4 : (s + au - 1) / au * au ≤ s + au - 1 := Nat.div_mul_le_self _ _
    exact Nat.lt_of_le_of_lt h4 (by omega)

/-- C4: every protocol fill routine stamps the request's unique equal to
the context's own identity, so requests stamped for contexts with distinct
identities carry distinct uniques. -/
theorem proto_unique_is_context_identity (sz : ProtoSizes) :
    (∀ ctx, (FuseProtoSendInitFill sz ctx).unique = ctx.id) ∧
    (∀ ctx, (FuseProtoSendLookupFill sz ctx).unique = ctx.id) ∧
    (∀ ctx, (FuseProtoFillForget sz ctx).1.unique = ctx.id) ∧
    (∀ ctx, (FuseProtoFillBatchForget sz ctx).1.unique = ctx.id) ∧
    (∀ ctx, (FuseProtoSendGetattrFill sz ctx).unique = ctx.id) ∧
    (∀ ctx, (FuseProtoSendOpenFill sz ctx).unique = ctx.id) ∧
    (∀ ctx, (FuseProtoSendOpendirFill sz ctx).unique = ctx.id) ∧
    (∀ (l o n l1 o1 n1 : Nat) (c1 c2 : FuseContext), c1.id ≠ c2.id →
      (FuseProtoInitRequest c1 l o n).unique ≠
        (FuseProtoInitRequest c2 l1 o1 n1).unique) := by
  refine ⟨fun ctx => rfl, fun ctx => rfl, fun ctx => ?_, fun ctx => rfl,
    fun ctx => rfl, fun ctx => rfl, fun ctx => rfl,
    fun l o n l1 o1 n1 c1 c2 hne => hne⟩
  cases h : ctx.forgetList with
  | nil => simp [FuseProtoFillForget, h, FuseProtoInitRequest]
  | cons a rest => simp [FuseProtoFillForget, h, FuseProtoInitRequest]

/-- Witness for C4 at concrete contexts. -/
theorem proto_unique_is_context_identity_witness :
    (FuseProtoSendLookupFill sampleSizes sampleCtx).unique = sampleCtx.id ∧
    (FuseProtoInitRequest sampleCtx 0 0 0).unique ≠
      (FuseProtoInitRequest { sampleCtx with id := 1001 } 0 0 0).unique :=
  ⟨(proto_unique_is_context_identity sampleSizes).2.1 sampleCtx,
   (proto_unique_is_context_identity sampleSizes).2.2.2.2.2.2.2 0 0 0 0 0 0
     sampleCtx { sampleCtx with id := 1001 } (by decide)⟩

/-- C6: the LOOKUP fill step writes a request of length lookup-size plus
name length plus one, with opcode LOOKUP, the parent inode as nodeid, and
the name bytes followed by a NUL after the header; under the bound the
code asserts (callers keep the name short enough), the total length never
exceeds FUSE_PROTO_REQ_SIZEMIN. -/
theorem lookup_fill_spec (sz : ProtoSizes) (ctx : FuseContext) :
    (FuseProtoSendLookupFill sz ctx).len =
      sz.lookupSize + ctx.lookupNameBytes.length + 1 ∧
    (FuseProtoSendLookupFill sz ctx).opcode = FUSE_PROTO_OPCODE_LOOKUP ∧
    (FuseProtoSendLookupFill sz ctx).nodeid = ctx.ino ∧
    (FuseProtoSendLookupFill sz ctx).payload =
      .lookupName (ctx.lookupNameBytes ++ [0]) ∧
    (LookupNameInBounds sz ctx →
      (FuseProtoSendLookupFill sz ctx).len ≤ sz.reqSizeMin) := by
  exact ⟨rfl, rfl, rfl, rfl, fun h => h⟩

/-- Witness for C6 at a concrete context. -/
theorem lookup_fill_spec_witness :
    (FuseProtoSendLookupFill sampleSizes sampleCtx).len = 44 ∧
    (FuseProtoSendLookupFill sampleSizes sampleCtx).len ≤ 272 :=
  ⟨(lookup_fill_spec sampleSizes sampleCtx).1,
   (lookup_fill_spec sampleSizes sampleCtx).2.2.2.2
     (by decide :
       sampleSizes.lookupSize + sampleCtx.lookupNameBytes.length + 1 ≤
         sampleSizes.reqSizeMin)⟩

/-- C7: FORGET emits one (nodeid, nlookup=1) taken from the head of the
forget list; BATCH_FORGET packs tuples until the minimum request size or
the list is exhausted, sets len to the bytes written and count to the
number of tuples packed. -/
theorem forget_fill_spec (sz : ProtoSizes) (ctx : FuseContext) :
    (∀ ino rest, ctx.forgetList = ino :: rest →
      (FuseProtoFillForget sz ctx).1.opcode = FUSE_PROTO_OPCODE_FORGET ∧
      (FuseProtoFillForget sz ctx).1.nodeid = ino ∧
      (FuseProtoFillForget sz ctx).1.payload = .forgetIn 1 ∧
      (FuseProtoFillForget sz ctx).1.len = sz.forgetSize ∧
      (FuseProtoFillForget sz ctx).2.forgetList = rest) ∧
    ((FuseProtoFillBatchForget sz ctx).1.opcode = FUSE_PROTO_OPCODE_BATCH_FORGET ∧
     (FuseProtoFillBatchForget sz ctx).1.payload =
       .batchForgetIn (min (batchForgetCapacity sz) ctx.forgetList.length)
         ((ctx.forgetList.take (batchForgetCapacity sz)).map (fun i => (i, 1))) ∧
     (FuseProtoFillBatchForget sz ctx).1.len =
       sz.batchForgetSize +
         min (batchForgetCapacity sz) ctx.forgetList.length * sz.forgetOneSize ∧
     (FuseProtoFillBatchForget sz ctx).2.forgetList =
       ctx.forgetList.drop (batchForgetCapacity sz)) := by
  constructor
  · intro ino rest h
    simp [FuseProtoFillForget, h, FuseProtoInitRequest]
  · refine ⟨rfl, ?_, ?_, ?_⟩ <;>
      simp [FuseProtoFillBatchForget, batchForgetLoop_eq, FuseProtoInitRequest,
        List.length_take, Nat.min_comm]

/-- Witness for C7 at a concrete context. -/
theorem forget_fill_spec_witness :
    (FuseProtoFillForget sampleSizes sampleCtx).1.nodeid = 11 ∧
    (FuseProtoFillForget sampleSizes sampleCtx).2.forgetList = [12, 13] ∧
    (FuseProtoFillBatchForget sampleSizes sampleCtx).1.len = 48 + 3 * 16 :=
  ⟨((forget_fill_spec sampleSizes sampleCtx).1 11 [12, 13] rfl).2.1,
   ((forget_fill_spec sampleSizes sampleCtx).1 11 [12, 13] rfl).2.2.2.2,
   (forget_fill_spec sampleSizes sampleCtx).2.2.2.1⟩

/-- C10: the OPEN send routine maps granted access to open flags:
FILE_READ_DATA alone or neither bit gives O_RDONLY (0), FILE_WRITE_DATA
alone gives O_WRONLY (1), both give O_RDWR (2), and bits other than these
two do not affect the flags. -/
theorem open_flags_mapping (sz : ProtoSizes) (ctx : FuseContext) :
    ((ctx.grantedAccess &&& 3 = FILE_READ_DATA ∨ ctx.grantedAccess &&& 3 = 0) →
      (FuseProtoSendOpenFill sz ctx).payload = .openIn 0) ∧
    (ctx.grantedAccess &&& 3 = FILE_WRITE_DATA →
      (FuseProtoSendOpenFill sz ctx).payload = .openIn 1) ∧
    (ctx.grantedAccess &&& 3 = 3 →
      (FuseProtoSendOpenFill sz ctx).payload = .openIn 2) ∧
    (∀ g : Nat,
      (FuseProtoSendOpenFill sz { ctx with grantedAccess := g }).payload =
        (FuseProtoSendOpenFill sz { ctx with grantedAccess := g &&& 3 }).payload) := by
  refine ⟨?_, ?_, ?_, ?_⟩
  · rintro (h | h) <;>
      simp [FuseProtoSendOpenFill, h, FILE_READ_DATA, FILE_WRITE_DATA,
        FuseProtoInitRequest]
  · intro h
    simp [FuseProtoSendOpenFill, h, FILE_READ_DATA, FILE_WRITE_DATA,
      FuseProtoInitRequest]
  · intro h
    simp [FuseProtoSendOpenFill, h, FILE_READ_DATA, FILE_WRITE_DATA,
      FuseProtoInitRequest]
  · intro g
    have hor : FILE_READ_DATA ||| FILE_WRITE_DATA = 3 := by decide
    have hm : g &&& 3 &&& 3 = g &&& 3 := by
      have h3 : g &&& 3 ≤ 3 := Nat.and_le_right
      interval_cases h : g &&& 3 <;> decide
    simp only [FuseProtoSendOpenFill, hor, hm]

/-- Witness for C10 at a concrete context. -/
theorem open_flags_mapping_witness :
    (FuseProtoSendOpenFill sampleSizes sampleCtx).payload = .openIn 0 ∧
    (FuseProtoSendOpenFill sampleSizes
        { sampleCtx with grantedAccess := 2 }).payload = .openIn 1 ∧
    (FuseProtoSendOpenFill sampleSizes
        { sampleCtx with grantedAccess := 19 }).payload = .openIn 2 :=
  ⟨(open_flags_mapping sampleSizes sampleCtx).1 (Or.inl (by decide)),
   (open_flags_mapping sampleSizes { sampleCtx with grantedAccess := 2 }).2.1
     (by decide),
   (open_flags_mapping sampleSizes { sampleCtx with grantedAccess := 19 }).2.2.1
     (by decide)⟩

/-- C5: FuseAttrToFileInfo sets the attributes and reparse tag from the
mode's format bits (directory; FIFO/char/block/socket as NFS reparse
points; symlink as symlink reparse point; otherwise none), copies the file
size, rounds the allocation size up to a multiple of
sector_size × sectors_per_allocation_unit, converts atime/mtime/ctime to
the access/write/change times with creation equal to change, and uses the
inode as index number. -/
theorem attr_to_file_info_spec (u2f : Nat → Nat → Nat) (vp : VolumeParams)
    (attr : FuseProtoAttr)
    (hau : 0 < vp.sectorSize * vp.sectorsPerAllocationUnit) :
    (attr.mode &&& 61440 = 16384 →
      (FuseAttrToFileInfo u2f vp attr).fileAttributes = FILE_ATTRIBUTE_DIRECTORY ∧
      (FuseAttrToFileInfo u2f vp attr).reparseTag = 0) ∧
    ((attr.mode &&& 61440 = 4096 ∨ attr.mode &&& 61440 = 8192 ∨
      attr.mode &&& 61440 = 24576 ∨ attr.mode &&& 61440 = 49152) →
      (FuseAttrToFileInfo u2f vp attr).fileAttributes = FILE_ATTRIBUTE_REPARSE_POINT ∧
      (FuseAttrToFileInfo u2f vp attr).reparseTag = IO_REPARSE_TAG_NFS) ∧
    (attr.mode &&& 61440 = 40960 →
      (FuseAttrToFileInfo u2f vp attr).fileAttributes = FILE_ATTRIBUTE_REPARSE_POINT ∧
      (FuseAttrToFileInfo u2f vp attr).reparseTag = IO_REPARSE_TAG_SYMLINK) ∧
    (attr.mode &&& 61440 ≠ 16384 → attr.mode &&& 61440 ≠ 4096 →
      attr.mode &&& 61440 ≠ 8192 → attr.mode &&& 61440 ≠ 24576 →
      attr.mode &&& 61440 ≠ 49152 → attr.mode &&& 61440 ≠ 40960 →
      (FuseAttrToFileInfo u2f vp attr).fileAttributes = 0 ∧
      (FuseAttrToFileInfo u2f vp attr).reparseTag = 0) ∧
    (FuseAttrToFileInfo u2f vp attr).fileSize = attr.size ∧
    ((FuseAttrToFileInfo u2f vp attr).allocationSize %
        (vp.sectorSize * vp.sectorsPerAllocationUnit) = 0 ∧
      attr.size ≤ (FuseAttrToFileInfo u2f vp attr).allocationSize ∧
      (FuseAttrToFileInfo u2f vp attr).allocationSize <
        attr.size + vp.sectorSize * vp.sectorsPerAllocationUnit) ∧
    (FuseAttrToFileInfo u2f vp attr).lastAccessTime = u2f attr.atime attr.atimensec ∧
    (FuseAttrToFileInfo u2f vp attr).lastWriteTime = u2f attr.mtime attr.mtimensec ∧
    (FuseAttrToFileInfo u2f vp attr).changeTime = u2f attr.ctime attr.ctimensec ∧
    (FuseAttrToFileInfo u2f vp attr).creationTime =
      (FuseAttrToFileInfo u2f vp attr).changeTime ∧
    (FuseAttrToFileInfo u2f vp attr).indexNumber = attr.ino := by
  refine ⟨?_, ?_, ?_, ?_, rfl, ?_, rfl, rfl, rfl, rfl, rfl⟩
  · intro h
    constructor <;> simp [FuseAttrToFileInfo, h]
  · intro h
    have hne : attr.mode &&& 61440 ≠ 16384 := by rcases h with h | h | h | h <;> omega
    constructor <;>
      · simp only [FuseAttrToFileInfo]
        rw [if_neg hne, if_pos h]
  · intro h
    constructor <;> simp [FuseAttrToFileInfo, h]
  · intro h1 h2 h3 h4 h5 h6
    constructor <;>
      · simp only [FuseAttrToFileInfo]
        rw [if_neg h1, if_neg (by tauto), if_neg h6]
  · simpa [FuseAttrToFileInfo] using roundUpMultiple attr.size _ hau

/-- Witness for C5 at concrete attributes and volume parameters. -/
theorem attr_to_file_info_spec_witness :
    (FuseAttrToFileInfo (fun s ns => s * 10000000 + ns / 100)
        { caseSensitiveSearch := true, casePreservedNames := true,
          persistentAcls := true, reparsePoints := true,
          reparsePointsAccessCheck := false, namedStreams := false,
          readOnlyVolume := false, postCleanupWhenModifiedOnly := true,
          passQueryDirectoryFileName := true, deviceControl := true,
          directoryMarkerAsNextOffset := true, sectorSize := 512,
          sectorsPerAllocationUnit := 8 }
        { ino := 42, size := 5000, atime := 3, mtime := 4, ctime := 5,
          atimensec := 0, mtimensec := 0, ctimensec := 0,
          mode := 16877 }).fileAttributes = FILE_ATTRIBUTE_DIRECTORY ∧
    (FuseAttrToFileInfo (fun s ns => s * 10000000 + ns / 100)
        { caseSensitiveSearch := true, casePreservedNames := true,
          persistentAcls := true, reparsePoints := true,
          reparsePointsAccessCheck := false, namedStreams := false,
          readOnlyVolume := false, postCleanupWhenModifiedOnly := true,
          passQueryDirectoryFileName := true, deviceControl := true,
          directoryMarkerAsNextOffset := true, sectorSize := 512,
          sectorsPerAllocationUnit := 8 }
        { ino := 42, size := 5000, atime := 3, mtime := 4, ctime := 5,
          atimensec := 0, mtimensec := 0, ctimensec := 0,
          mode := 16877 }).allocationSize = 8192 :=
  ⟨((attr_to_file_info_spec (fun s ns => s * 10000000 + ns / 100) _ _
      (by decide)).1 (by decide)).1,
   by decide⟩

/-- One BATCH_FORGET half-step leaves the context's forget list with the
capacity's worth of entries dropped, re-posting iff entries remain. -/
theorem forgetRequestHalfStep_batch (sz : ProtoSizes) (ctx : FuseContext)
    (h : ctx.internalResponse.hint = FUSE_PROTO_OPCODE_BATCH_FORGET) :
    (forgetRequestHalfStep sz ctx).2 =
      if ctx.forgetList.drop (batchForgetCapacity sz) ≠ [] then
        some { ctx with forgetList := ctx.forgetList.drop (batchForgetCapacity sz) }
      else none := by
  simp [forgetRequestHalfStep, h, FuseProtoFillBatchForget, batchForgetLoop_eq]

/-- One single-FORGET half-step pops the head of the forget list,
re-posting iff entries remain. -/
theorem forgetRequestHalfStep_single (sz : ProtoSizes) (ctx : FuseContext)
    (h : ctx.internalResponse.hint = FUSE_PROTO_OPCODE_FORGET)
    (ino : Nat) (rest : List Nat) (hl : ctx.forgetList = ino :: rest) :
    (forgetRequestHalfStep sz ctx).2 =
      if rest ≠ [] then some { ctx with forgetList := rest } else none := by
  have hne : ctx.internalResponse.hint ≠ FUSE_PROTO_OPCODE_BATCH_FORGET := by
    rw [h]; decide
  simp [forgetRequestHalfStep, hne, FuseProtoFillForget, hl]

/-- A BATCH_FORGET context with N entries drains in exactly
⌈N / capacity⌉ request half-steps. -/
theorem forgetDrainSteps_batch (sz : ProtoSizes)
    (hc : 1 ≤ batchForgetCapacity sz) :
    ∀ (fuel : Nat) (ctx : FuseContext),
      ctx.internalResponse.hint = FUSE_PROTO_OPCODE_BATCH_FORGET →
      1 ≤ ctx.forgetList.length → ctx.forgetList.length ≤ fuel →
      forgetDrainSteps sz fuel ctx =
        some ((ctx.forgetList.length + batchForgetCapacity sz - 1) /
          batchForgetCapacity sz) := by
  intro fuel
  induction fuel with
  | zero => intro ctx _ h1 h2; omega
  | succ n ih =>
      intro ctx hh h1 h2
      rcases le_or_lt ctx.forgetList.length (batchForgetCapacity sz) with hle | hgt
      · have hdrop : ctx.forgetList.drop (batchForgetCapacity sz) = [] :=
          List.drop_eq_nil_of_le hle
        have hstep := forgetRequestHalfStep_batch sz ctx hh
        rw [hdrop] at hstep
        simp only [ne_eq, not_true_eq_false, if_false, ite_self] at hstep
        have hval : forgetDrainSteps sz (n + 1) ctx = some 1 := by
          simp [forgetDrainSteps, hstep]
        rw [hval]
        congr 1
        have he : ctx.forgetList.length + batchForgetCapacity sz - 1 =
            (ctx.forgetList.length - 1) + batchForgetCapacity sz := by omega
        rw [he, Nat.add_div_right _ (by omega),
          Nat.div_eq_of_lt (show ctx.forgetList.length - 1 < batchForgetCapacity sz
            by omega)]
      · have hlen : (ctx.forgetList.drop (batchForgetCapacity sz)).length =
            ctx.forgetList.length - batchForgetCapacity sz := List.length_drop _ _
        have hdropne : ctx.forgetList.drop (batchForgetCapacity sz) ≠ [] := by
          intro hnil
          rw [hnil] at hlen
          simp only [List.length_nil] at hlen
          omega
        have hstep := forgetRequestHalfStep_batch sz ctx hh
        rw [if_pos hdropne] at hstep
        have h1d : 1 ≤ (ctx.forgetList.drop (batchForgetCapacity sz)).length := by
          rw [hlen]; omega
        have h2d : (ctx.forgetList.drop (batchForgetCapacity sz)).length ≤ n := by
          rw [hlen]; omega
        have hrec : forgetDrainSteps sz n
            { ctx with forgetList := ctx.forgetList.drop (batchForgetCapacity sz) } =
            some ((ctx.forgetList.length - batchForgetCapacity sz +
              batchForgetCapacity sz - 1) / batchForgetCapacity sz) := by
          have hr := ih
            { ctx with forgetList := ctx.forgetList.drop (batchForgetCapacity sz) }
            hh h1d h2d
          rw [hr]
          congr 1
          rw [show ({ ctx with
              forgetList := ctx.forgetList.drop (batchForgetCapacity sz) } :
                FuseContext).forgetList.length =
              (ctx.forgetList.drop (batchForgetCapacity sz)).length from rfl, hlen]
        have hun : forgetDrainSteps sz (n + 1) ctx =
            Option.map (· + 1) (forgetDrainSteps sz n
              { ctx with forgetList := ctx.forgetList.drop (batchForgetCapacity sz) }) := by
          simp [forgetDrainSteps, hstep]
        rw [hun, hrec]
        have hmap : Option.map (· + 1)
            (some ((ctx.forgetList.length - batchForgetCapacity sz +
              batchForgetCapacity sz - 1) / batchForgetCapacity sz)) =
            some ((ctx.forgetList.length - batchForgetCapacity sz +
              batchForgetCapacity sz - 1) / batchForgetCapacity sz + 1) := rfl
        rw [hmap]
        congr 1
        have he : ctx.forgetList.length + batchForgetCapacity sz - 1 =
            (ctx.forgetList.length - batchForgetCapacity sz +
              batchForgetCapacity sz - 1) + batchForgetCapacity sz := by omega
        rw [he, Nat.add_div_right _ (by omega)]

/-- A single-FORGET context with N entries drains in exactly N request
half-steps. -/
theorem forgetDrainSteps_single (sz : ProtoSizes) :
    ∀ (fuel : Nat) (ctx : FuseContext),
      ctx.internalResponse.hint = FUSE_PROTO_OPCODE_FORGET →
      1 ≤ ctx.forgetList.length → ctx.forgetList.length ≤ fuel →
      forgetDrainSteps sz fuel ctx = some ctx.forgetList.length := by
  intro fuel
  induction fuel with
  | zero => intro ctx _ h1 h2; omega
  | succ n ih =>
      intro ctx hh h1 h2
      obtain ⟨ino, rest, hl⟩ : ∃ ino rest, ctx.forgetList = ino :: rest := by
        cases hx : ctx.forgetList with
        | nil => rw [hx] at h1; simp at h1
        | cons a l => exact ⟨a, l, rfl⟩
      have hstep := forgetRequestHalfStep_single sz ctx hh ino rest hl
      rw [hl] at h2 ⊢
      simp only [List.length_cons] at h2 ⊢
      by_cases hrest : rest = []
      · subst hrest
        simp only [ne_eq, not_true_eq_false, if_false, ite_self] at hstep
        simp [forgetDrainSteps, hstep]
      · rw [if_pos hrest] at hstep
        have h1r : 1 ≤ rest.length := by
          cases rest with
          | nil => exact absurd rfl hrest
          | cons b bs => simp
        have h2r : rest.length ≤ n := by omega
        have hrec : forgetDrainSteps sz n { ctx with forgetList := rest } =
            some rest.length := ih { ctx with forgetList := rest } hh h1r h2r
        have hun : forgetDrainSteps sz (n + 1) ctx =
            Option.map (· + 1)
              (forgetDrainSteps sz n { ctx with forgetList := rest }) := by
          simp [forgetDrainSteps, hstep]
        rw [hun, hrec]
        simp

/-- C3: a self-generated FORGET/BATCH_FORGET context finishing a request
half-step is re-posted to pending iff its forget list is still non-empty
and destroyed otherwise; a BATCH_FORGET context with N entries drains in
exactly ⌈N / capacity⌉ request half-steps (hence at most that many), and a
single-FORGET context in exactly N. -/
theorem forget_context_drain (sz : ProtoSizes) (ctx : FuseContext) :
    (∀ c1, (forgetRequestHalfStep sz ctx).2 = some c1 → c1.forgetList ≠ []) ∧
    ((forgetRequestHalfStep sz ctx).2 = none →
      (if ctx.internalResponse.hint = FUSE_PROTO_OPCODE_BATCH_FORGET then
          FuseProtoFillBatchForget sz ctx
        else FuseProtoFillForget sz ctx).2.forgetList = []) ∧
    (ctx.internalResponse.hint = FUSE_PROTO_OPCODE_BATCH_FORGET →
      1 ≤ batchForgetCapacity sz → 1 ≤ ctx.forgetList.length →
      forgetDrainSteps sz ctx.forgetList.length ctx =
        some ((ctx.forgetList.length + batchForgetCapacity sz - 1) /
          batchForgetCapacity sz)) ∧
    (ctx.internalResponse.hint = FUSE_PROTO_OPCODE_FORGET →
      1 ≤ ctx.forgetList.length →
      forgetDrainSteps sz ctx.forgetList.length ctx =
        some ctx.forgetList.length) := by
  have hsnd : (forgetRequestHalfStep sz ctx).2 =
      if (if ctx.internalResponse.hint = FUSE_PROTO_OPCODE_BATCH_FORGET then
            FuseProtoFillBatchForget sz ctx
          else FuseProtoFillForget sz ctx).2.forgetList ≠ [] then
        some (if ctx.internalResponse.hint = FUSE_PROTO_OPCODE_BATCH_FORGET then
            FuseProtoFillBatchForget sz ctx
          else FuseProtoFillForget sz ctx).2
      else none := rfl
  refine ⟨?_, ?_, ?_, ?_⟩
  · intro c1 h
    rw [hsnd] at h
    by_cases hne : (if ctx.internalResponse.hint = FUSE_PROTO_OPCODE_BATCH_FORGET
        then FuseProtoFillBatchForget sz ctx
        else FuseProtoFillForget sz ctx).2.forgetList = []
    · rw [if_neg (not_not_intro hne)] at h
      cases h
    · rw [if_pos hne] at h
      injection h with h1
      rw [← h1]
      exact hne
  · intro h
    rw [hsnd] at h
    by_cases hne : (if ctx.internalResponse.hint = FUSE_PROTO_OPCODE_BATCH_FORGET
        then FuseProtoFillBatchForget sz ctx
        else FuseProtoFillForget sz ctx).2.forgetList = []
    · exact hne
    · rw [if_pos hne] at h
      cases h
  · intro hh hc h1
    exact forgetDrainSteps_batch sz hc ctx.forgetList.length ctx hh h1 le_rfl
  · intro hh h1
    exact forgetDrainSteps_single sz ctx.forgetList.length ctx hh h1 le_rfl

/-- Witness for C3: the sample BATCH_FORGET context with 3 entries drains
in one half-step, and the same context with a single-FORGET hint drains in
three. -/
theorem forget_context_drain_witness :
    forgetDrainSteps sampleSizes 3 sampleCtx = some 1 ∧
    forgetDrainSteps sampleSizes 3
      { sampleCtx with internalResponse :=
          { sampleCtx.internalResponse with hint := FUSE_PROTO_OPCODE_FORGET } } =
      some 3 :=
  ⟨(forget_context_drain sampleSizes sampleCtx).2.2.1 (by decide) (by decide)
      (by decide),
   (forget_context_drain sampleSizes
      { sampleCtx with internalResponse :=
          { sampleCtx.internalResponse with
              hint := FUSE_PROTO_OPCODE_FORGET } }).2.2.2 (by decide) (by decide)⟩

/-- C1: a non-empty input buffer below RSP_HEADER_SIZE, or a response len
below RSP_HEADER_SIZE or above the input buffer length, returns
INVALID_PARAMETER; with valid (or absent) input, a non-empty output buffer
below REQ_SIZEMIN returns BUFFER_TOO_SMALL; both failures return with the
IOQ and Cache untouched, for every behaviour of the collaborators; an
output buffer of exactly REQ_SIZEMIN with a response of len exactly
RSP_HEADER_SIZE passes validation, and whenever validation passes the call
proceeds into the transact body. -/
theorem transact_validation_boundary {χ : Type} (sz : ProtoSizes)
    (env : TransactEnv χ) (inst : Instance) (cache : χ) (tin : TransactIn) :
    (tin.inputBufferLength ≠ 0 →
      (tin.inputBufferLength < sz.rspHeaderSize ∨
        tin.response.len < sz.rspHeaderSize ∨
        tin.inputBufferLength < tin.response.len) →
      FuseDeviceTransact sz env inst cache tin =
        { result := .invalidParameter, inst := inst, cache := cache,
          info := 0, request := none }) ∧
    ((tin.inputBufferLength = 0 ∨
        (sz.rspHeaderSize ≤ tin.inputBufferLength ∧
         sz.rspHeaderSize ≤ tin.response.len ∧
         tin.response.len ≤ tin.inputBufferLength)) →
      tin.outputBufferLength ≠ 0 → tin.outputBufferLength < sz.reqSizeMin →
      FuseDeviceTransact sz env inst cache tin =
        { result := .bufferTooSmall, inst := inst, cache := cache,
          info := 0, request := none }) ∧
    (∀ (e : Int) (u : Nat),
      transactValidate sz
        { inputBufferLength := sz.rspHeaderSize,
          outputBufferLength := sz.reqSizeMin,
          response := { len := sz.rspHeaderSize, error := e, unique := u } } =
        none) ∧
    (transactValidate sz tin = none →
      FuseDeviceTransact sz env inst cache tin = transactBody env inst cache tin) := by
  refine ⟨?_, ?_, ?_, ?_⟩
  · intro h1 h2
    have hv : transactValidate sz tin = some .invalidParameter := by
      unfold transactValidate
      rw [if_pos ⟨h1, h2⟩]
    unfold FuseDeviceTransact
    rw [hv]
  · intro h1 h2 h3
    have hv : transactValidate sz tin = some .bufferTooSmall := by
      unfold transactValidate
      rw [if_neg (by rcases h1 with h | ⟨a, b, c⟩ <;> simp <;> omega), if_pos ⟨h2, h3⟩]
    unfold FuseDeviceTransact
    rw [hv]
  · intro e u
    unfold transactValidate
    rw [if_neg (by simp), if_neg (by simp)]
  · intro hv
    unfold FuseDeviceTransact
    rw [hv]

/-- Witness for C1 at concrete inputs: an 8-byte input buffer is rejected
with INVALID_PARAMETER and a 271-byte output buffer with
BUFFER_TOO_SMALL, both leaving the state unchanged. -/
theorem transact_validation_boundary_witness :
    FuseDeviceTransact sampleSizes sampleEnv sampleInst 0
        { inputBufferLength := 8, outputBufferLength := 0,
          response := { len := 8, error := 0, unique := 0 } } =
      { result := .invalidParameter, inst := sampleInst, cache := 0,
        info := 0, request := none } ∧
    FuseDeviceTransact sampleSizes sampleEnv sampleInst 0
        { inputBufferLength := 0, outputBufferLength := 271,
          response := { len := 0, error := 0, unique := 0 } } =
      { result := .bufferTooSmall, inst := sampleInst, cache := 0,
        info := 0, request := none } :=
  ⟨(transact_validation_boundary sampleSizes sampleEnv sampleInst 0
      { inputBufferLength := 8, outputBufferLength := 0,
        response := { len := 8, error := 0, unique := 0 } }).1
      (by decide) (by decide),
   (transact_validation_boundary sampleSizes sampleEnv sampleInst 0
      { inputBufferLength := 0, outputBufferLength := 271,
        response := { len := 0, error := 0, unique := 0 } }).2.1
      (Or.inl (by decide)) (by decide) (by decide)⟩

/-- C2: in the request half-step with the pending queue empty: when the
version major is 0 the call waits on the init event, and a wait result of
timeout or thread-terminating is returned as STATUS_CANCELLED; when the
version major is the all-ones sentinel (directly, or re-read after a
successful wait) the call returns STATUS_ACCESS_DENIED; otherwise the host
framework is asked for a new internal request, and if it supplies none the
call returns STATUS_SUCCESS with zero I/O information. -/
theorem transact_pending_empty_paths {χ : Type} (sz : ProtoSizes)
    (env : TransactEnv χ) (inst : Instance) (cache : χ) (tin : TransactIn)
    (hpend : inst.ioq.pending = [])
    (hin : tin.inputBufferLength = 0)
    (hout : tin.outputBufferLength ≠ 0)
    (houtsz : sz.reqSizeMin ≤ tin.outputBufferLength) :
    (inst.versionMajor = 0 →
      (env.waitInit = .timeout ∨ env.waitInit = .threadIsTerminating) →
      (FuseDeviceTransact sz env inst cache tin).result = .cancelled) ∧
    (inst.versionMajor = uint32Max →
      (FuseDeviceTransact sz env inst cache tin).result = .accessDenied) ∧
    (inst.versionMajor = 0 → env.waitInit = .success →
      env.versionAfterWait = uint32Max →
      (FuseDeviceTransact sz env inst cache tin).result = .accessDenied) ∧
    (inst.versionMajor ≠ 0 → inst.versionMajor ≠ uint32Max →
      env.hostPull.2 = none → ntSuccess env.hostPull.1 →
      (FuseDeviceTransact sz env inst cache tin).result = .success ∧
      (FuseDeviceTransact sz env inst cache tin).info = 0) := by
  have hv : transactValidate sz tin = none := by
    unfold transactValidate
    rw [if_neg (by simp [hin]), if_neg (by omega)]
  have hbody : FuseDeviceTransact sz env inst cache tin =
      transactRequestHalf env inst cache tin.outputBufferLength := by
    unfold FuseDeviceTransact
    rw [hv]
    unfold transactBody
    rw [if_neg (by simp [hin])]
  have hnext : FuseIoqNextPending inst.ioq = (none, inst.ioq) := by
    unfold FuseIoqNextPending
    rw [hpend]
  refine ⟨?_, ?_, ?_, ?_⟩
  · intro hvm hw
    rw [hbody]
    unfold transactRequestHalf
    rw [if_neg hout, hnext]
    simp only [hvm, if_pos rfl]
    rcases hw with hw | hw <;> rw [hw] <;> rfl
  · intro hvm
    rw [hbody]
    unfold transactRequestHalf
    rw [if_neg hout, hnext]
    rw [if_neg (by rw [hvm]; unfold uint32Max; omega)]
    unfold transactRequestFresh
    rw [if_pos hvm]
  · intro hvm hw hva
    rw [hbody]
    unfold transactRequestHalf
    rw [if_neg hout, hnext]
    simp only [hvm, if_pos rfl]
    rw [hw]
    have : (if NtStatus.success = NtStatus.timeout ∨
          NtStatus.success = NtStatus.threadIsTerminating then
        NtStatus.cancelled else NtStatus.success) = NtStatus.success := by decide
    rw [this]
    have hns : (!ntSuccess NtStatus.success) = false := by decide
    rw [hns]
    simp only [Bool.false_eq_true, if_false]
    unfold transactRequestFresh
    rw [if_pos hva]
    simp
  · intro hvm hvmax hpull hps
    rw [hbody]
    unfold transactRequestHalf
    rw [if_neg hout, hnext, if_neg hvm]
    unfold transactRequestFresh
    rw [if_neg hvmax, if_neg (by rw [hps]; simp), hpull]
    exact ⟨rfl, rfl⟩

/-- Witness for C2 at concrete inputs: with version major 0 a timed-out
init wait is surfaced as cancelled; with the sentinel version the call is
denied; with a live version and no internal request the call succeeds with
zero information. -/
theorem transact_pending_empty_paths_witness :
    (FuseDeviceTransact sampleSizes sampleEnv sampleInst 0
        { inputBufferLength := 0, outputBufferLength := 272,
          response := { len := 0, error := 0, unique := 0 } }).result =
      .cancelled ∧
    (FuseDeviceTransact sampleSizes sampleEnv
        { sampleInst with versionMajor := uint32Max } 0
        { inputBufferLength := 0, outputBufferLength := 272,
          response := { len := 0, error := 0, unique := 0 } }).result =
      .accessDenied ∧
    (FuseDeviceTransact sampleSizes sampleEnv
        { sampleInst with versionMajor := 7 } 0
        { inputBufferLength := 0, outputBufferLength := 272,
          response := { len := 0, error := 0, unique := 0 } }).result =
      .success :=
  ⟨(transact_pending_empty_paths sampleSizes sampleEnv sampleInst 0
      { inputBufferLength := 0, outputBufferLength := 272,
        response := { len := 0, error := 0, unique := 0 } }
      rfl rfl (by decide) (by decide)).1 rfl (Or.inl rfl),
   (transact_pending_empty_paths sampleSizes sampleEnv
      { sampleInst with versionMajor := uint32Max } 0
      { inputBufferLength := 0, outputBufferLength := 272,
        response := { len := 0, error := 0, unique := 0 } }
      rfl rfl (by decide) (by decide)).2.1 rfl,
   ((transact_pending_empty_paths sampleSizes sampleEnv
      { sampleInst with versionMajor := 7 } 0
      { inputBufferLength := 0, outputBufferLength := 272,
        response := { len := 0, error := 0, unique := 0 } }
      rfl rfl (by decide) (by decide)).2.2.2 (by decide) (by decide) rfl
      (by decide)).1⟩

/-- C8: a transact call whose input carries a unique not present in the
processing map behaves exactly like the same call with no input buffer:
the response half-step leaves the IOQ and Cache untouched, the request
half-step still runs normally, and with a pending context whose resume
continues, the call returns success and emits that context's request. -/
theorem transact_spurious_response {χ : Type} (sz : ProtoSizes)
    (env : TransactEnv χ) (inst : Instance) (cache : χ) (tin : TransactIn)
    (hin : tin.inputBufferLength ≠ 0)
    (h1 : sz.rspHeaderSize ≤ tin.inputBufferLength)
    (h2 : sz.rspHeaderSize ≤ tin.response.len)
    (h3 : tin.response.len ≤ tin.inputBufferLength)
    (hun : ∀ p ∈ inst.ioq.processing, p.1 ≠ tin.response.unique) :
    FuseDeviceTransact sz env inst cache tin =
      FuseDeviceTransact sz env inst cache { tin with inputBufferLength := 0 } ∧
    (∀ c rest, inst.ioq.pending = c :: rest →
      sz.reqSizeMin ≤ tin.outputBufferLength → tin.outputBufferLength ≠ 0 →
      (env.processReq c zeroReq tin.outputBufferLength cache).1 = true →
      (FuseDeviceTransact sz env inst cache tin).result = .success ∧
      (FuseDeviceTransact sz env inst cache tin).request =
        some (env.processReq c zeroReq tin.outputBufferLength cache).2.2.2 ∧
      (FuseDeviceTransact sz env inst cache tin).info =
        (env.processReq c zeroReq tin.outputBufferLength cache).2.2.2.len) := by
  have hinbad : ¬(tin.inputBufferLength ≠ 0 ∧
      (tin.inputBufferLength < sz.rspHeaderSize ∨
       tin.response.len < sz.rspHeaderSize ∨
       tin.inputBufferLength < tin.response.len)) := by
    rintro ⟨_, hbad⟩
    rcases hbad with h | h | h <;> omega
  have hfind : inst.ioq.processing.find? (fun p => p.1 = tin.response.unique) =
      none := by
    apply List.find?_eq_none.mpr
    intro p hp
    simpa using hun p hp
  have hend : FuseIoqEndProcessing inst.ioq tin.response.unique =
      (none, inst.ioq) := by
    unfold FuseIoqEndProcessing
    rw [hfind]
  have hrsp : transactResponseHalf env inst cache tin.response =
      .ok (inst, cache) := by
    unfold transactResponseHalf
    rw [hend]
  constructor
  · by_cases hob : tin.outputBufferLength ≠ 0 ∧
        tin.outputBufferLength < sz.reqSizeMin
    · have hvL : transactValidate sz tin = some .bufferTooSmall := by
        unfold transactValidate
        rw [if_neg hinbad, if_pos hob]
      have hvR : transactValidate sz { tin with inputBufferLength := 0 } =
          some .bufferTooSmall := by
        unfold transactValidate
        rw [if_neg (by simp), if_pos hob]
      unfold FuseDeviceTransact
      rw [hvL, hvR]
    · have hvL : transactValidate sz tin = none := by
        unfold transactValidate
        rw [if_neg hinbad, if_neg hob]
      have hvR : transactValidate sz { tin with inputBufferLength := 0 } =
          none := by
        unfold transactValidate
        rw [if_neg (by simp), if_neg hob]
      unfold FuseDeviceTransact
      rw [hvL, hvR]
      unfold transactBody
      rw [if_pos hin, hrsp, if_neg (by simp)]
  · intro c rest hp hsz hone hcont
    have hvL : transactValidate sz tin = none := by
      unfold transactValidate
      rw [if_neg hinbad, if_neg (by push_neg; intro _; omega)]
    have hnp : FuseIoqNextPending inst.ioq =
        (some c, { inst.ioq with pending := rest }) := by
      unfold FuseIoqNextPending
      rw [hp]
    have hcall : FuseDeviceTransact sz env inst cache tin =
        transactRequestHalf env inst cache tin.outputBufferLength := by
      unfold FuseDeviceTransact
      rw [hvL]
      unfold transactBody
      rw [if_pos hin, hrsp]
    have hreq : transactRequestHalf env inst cache tin.outputBufferLength =
        transactRequestDispatch env inst { inst.ioq with pending := rest }
          (env.processReq c zeroReq tin.outputBufferLength cache).2.2.1
          (env.processReq c zeroReq tin.outputBufferLength cache).1 none none
          (env.processReq c zeroReq tin.outputBufferLength cache).2.1
          (env.processReq c zeroReq tin.outputBufferLength cache).2.2.2 := by
      unfold transactRequestHalf
      rw [if_neg hone, hnp]
    rw [hcall, hreq]
    unfold transactRequestDispatch
    rw [hcont]
    exact ⟨rfl, rfl, rfl⟩

/-- Witness for C8 at concrete inputs: a response with unique 999 against
a processing map holding only unique 1000 has no effect, and with a
pending context the call still succeeds and emits its request. -/
theorem transact_spurious_response_witness :
    (FuseDeviceTransact sampleSizes sampleEnv
        { ioq := { pending := [sampleCtx], processing := [(1000, sampleCtx)] },
          versionMajor := 7 } 0
        { inputBufferLength := 16, outputBufferLength := 272,
          response := { len := 16, error := 0, unique := 999 } } =
      FuseDeviceTransact sampleSizes sampleEnv
        { ioq := { pending := [sampleCtx], processing := [(1000, sampleCtx)] },
          versionMajor := 7 } 0
        { inputBufferLength := 0, outputBufferLength := 272,
          response := { len := 16, error := 0, unique := 999 } }) ∧
    (FuseDeviceTransact sampleSizes sampleEnv
        { ioq := { pending := [sampleCtx], processing := [(1000, sampleCtx)] },
          versionMajor := 7 } 0
        { inputBufferLength := 16, outputBufferLength := 272,
          response := { len := 16, error := 0, unique := 999 } }).result =
      .success :=
  ⟨(transact_spurious_response sampleSizes sampleEnv
      { ioq := { pending := [sampleCtx], processing := [(1000, sampleCtx)] },
        versionMajor := 7 } 0
      { inputBufferLength := 16, outputBufferLength := 272,
        response := { len := 16, error := 0, unique := 999 } }
      (by decide) (by decide) (by decide) (by decide)
      (by intro p hp; simp at hp; subst hp; decide)).1,
   ((transact_spurious_response sampleSizes sampleEnv
      { ioq := { pending := [sampleCtx], processing := [(1000, sampleCtx)] },
        versionMajor := 7 } 0
      { inputBufferLength := 16, outputBufferLength := 272,
        response := { len := 16, error := 0, unique := 999 } }
      (by decide) (by decide) (by decide) (by decide)
      (by intro p hp; simp at hp; subst hp; decide)).2 sampleCtx []
      rfl (by decide) (by decide) rfl).1⟩

/-- C9: FuseDeviceInit forces the volume parameters to the fixed values
(preserving the sector geometry), and performs in order: IOQ creation,
Cache creation (with the case-insensitivity flag derived from the forced
parameters), op-guard lock and init event initialization, file-table
bring-up, and posting the internal INIT context; on success it returns
success having performed exactly that sequence, and on any failure it
returns the failing status having deleted exactly what had been created. -/
theorem device_init_spec (env : InitEnv) (vp : VolumeParams) :
    ((FuseDeviceInit env vp).2.1.caseSensitiveSearch = true ∧
     (FuseDeviceInit env vp).2.1.casePreservedNames = true ∧
     (FuseDeviceInit env vp).2.1.persistentAcls = true ∧
     (FuseDeviceInit env vp).2.1.reparsePoints = true ∧
     (FuseDeviceInit env vp).2.1.reparsePointsAccessCheck = false ∧
     (FuseDeviceInit env vp).2.1.namedStreams = false ∧
     (FuseDeviceInit env vp).2.1.readOnlyVolume = false ∧
     (FuseDeviceInit env vp).2.1.postCleanupWhenModifiedOnly = true ∧
     (FuseDeviceInit env vp).2.1.passQueryDirectoryFileName = true ∧
     (FuseDeviceInit env vp).2.1.deviceControl = true ∧
     (FuseDeviceInit env vp).2.1.directoryMarkerAsNextOffset = true ∧
     (FuseDeviceInit env vp).2.1.sectorSize = vp.sectorSize ∧
     (FuseDeviceInit env vp).2.1.sectorsPerAllocationUnit =
       vp.sectorsPerAllocationUnit) ∧
    (ntSuccess env.ioqCreate → ntSuccess (env.cacheCreate false) →
      ntSuccess env.postInit →
      (FuseDeviceInit env vp).1 = .success ∧
      (FuseDeviceInit env vp).2.2 =
        [.ioqCreated, .cacheCreated, .opGuardLockInitialized,
         .initEventInitialized, .fileTableInitialized, .initPosted]) ∧
    (¬ntSuccess env.ioqCreate →
      (FuseDeviceInit env vp).1 = env.ioqCreate ∧
      (FuseDeviceInit env vp).2.2 = []) ∧
    (ntSuccess env.ioqCreate → ¬ntSuccess (env.cacheCreate false) →
      (FuseDeviceInit env vp).1 = env.cacheCreate false ∧
      (FuseDeviceInit env vp).2.2 = [.ioqCreated, .ioqDeleted]) ∧
    (ntSuccess env.ioqCreate → ntSuccess (env.cacheCreate false) →
      ¬ntSuccess env.postInit →
      (FuseDeviceInit env vp).1 = env.postInit ∧
      (FuseDeviceInit env vp).2.2 =
        [.ioqCreated, .cacheCreated, .opGuardLockInitialized,
         .initEventInitialized, .fileTableInitialized, .cacheDeleted,
         .ioqDeleted]) ∧
    ((InitEvent.ioqCreated ∈ (FuseDeviceInit env vp).2.2 ∧
        (FuseDeviceInit env vp).1 ≠ .success →
      InitEvent.ioqDeleted ∈ (FuseDeviceInit env vp).2.2) ∧
     (InitEvent.cacheCreated ∈ (FuseDeviceInit env vp).2.2 ∧
        (FuseDeviceInit env vp).1 ≠ .success →
      InitEvent.cacheDeleted ∈ (FuseDeviceInit env vp).2.2)) := by
  cases hioq : ntSuccess env.ioqCreate with
  | false =>
      have hval : FuseDeviceInit env vp =
          (env.ioqCreate, fuseNormalizeVolumeParams vp, []) := by
        unfold FuseDeviceInit
        rw [hioq]
        rfl
      refine ⟨?_, ?_, ?_, ?_, ?_, ?_, ?_⟩
      · rw [hval]
        exact ⟨rfl, rfl, rfl, rfl, rfl, rfl, rfl, rfl, rfl, rfl, rfl, rfl, rfl⟩
      · intro h
        cases h
      · intro _
        rw [hval]
        exact ⟨rfl, rfl⟩
      · intro h
        cases h
      · intro h
        cases h
      · intro h
        rw [hval] at h
        exact absurd h.1 (by simp)
      · intro h
        rw [hval] at h
        exact absurd h.1 (by simp)
  | true =>
      cases hcc : ntSuccess (env.cacheCreate false) with
      | false =>
          have hval : FuseDeviceInit env vp =
              (env.cacheCreate false, fuseNormalizeVolumeParams vp,
                [.ioqCreated, .ioqDeleted]) := by
            unfold FuseDeviceInit
            rw [hioq,
              show (!(fuseNormalizeVolumeParams vp).caseSensitiveSearch) = false
                from rfl, hcc]
            rfl
          refine ⟨?_, ?_, ?_, ?_, ?_, ?_, ?_⟩
          · rw [hval]
            exact ⟨rfl, rfl, rfl, rfl, rfl, rfl, rfl, rfl, rfl, rfl, rfl, rfl,
              rfl⟩
          · intro _ h
            cases h
          · intro h
            exact absurd rfl h
          · intro _ _
            rw [hval]
            exact ⟨rfl, rfl⟩
          · intro _ h
            cases h
          · rw [hval]
            intro _
            simp
          · rw [hval]
            intro h
            exact absurd h.1 (by simp)
      | true =>
          cases hpi : ntSuccess env.postInit with
          | false =>
              have hval : FuseDeviceInit env vp =
                  (env.postInit, fuseNormalizeVolumeParams vp,
                    [.ioqCreated, .cacheCreated, .opGuardLockInitialized,
                     .initEventInitialized, .fileTableInitialized,
                     .cacheDeleted, .ioqDeleted]) := by
                unfold FuseDeviceInit
                rw [hioq,
                  show (!(fuseNormalizeVolumeParams vp).caseSensitiveSearch) =
                    false from rfl, hcc, hpi]
                rfl
              refine ⟨?_, ?_, ?_, ?_, ?_, ?_, ?_⟩
              · rw [hval]
                exact ⟨rfl, rfl, rfl, rfl, rfl, rfl, rfl, rfl, rfl, rfl, rfl,
                  rfl, rfl⟩
              · intro _ _ h
                cases h
              · intro h
                exact absurd rfl h
              · intro _ h
                exact absurd rfl h
              · intro _ _ _
                rw [hval]
                exact ⟨rfl, rfl⟩
              · rw [hval]
                intro _
                simp
              · rw [hval]
                intro _
                simp
          | true =>
              have hval : FuseDeviceInit env vp =
                  (.success, fuseNormalizeVolumeParams vp,
                    [.ioqCreated, .cacheCreated, .opGuardLockInitialized,
                     .initEventInitialized, .fileTableInitialized,
                     .initPosted]) := by
                unfold FuseDeviceInit
                rw [hioq,
                  show (!(fuseNormalizeVolumeParams vp).caseSensitiveSearch) =
                    false from rfl, hcc, hpi]
                rfl
              refine ⟨?_, ?_, ?_, ?_, ?_, ?_, ?_⟩
              · rw [hval]
                exact ⟨rfl, rfl, rfl, rfl, rfl, rfl, rfl, rfl, rfl, rfl, rfl,
                  rfl, rfl⟩
              · intro _ _ _
                rw [hval]
                exact ⟨rfl, rfl⟩
              · intro h
                exact absurd rfl h
              · intro _ h
                exact absurd rfl h
              · intro _ _ h
                exact absurd rfl h
              · rw [hval]
                rintro ⟨_, hne⟩
                exact absurd rfl hne
              · rw [hval]
                rintro ⟨_, hne⟩
                exact absurd rfl hne

/-- Witness for C9 at concrete environments: an all-success environment
yields success with the full event trace, and a cache-create failure
yields the failing status having deleted the IOQ. -/
theorem device_init_spec_witness :
    (FuseDeviceInit
        { ioqCreate := .success, cacheCreate := fun _ => .success,
          postInit := .success }
        { caseSensitiveSearch := false, casePreservedNames := false,
          persistentAcls := false, reparsePoints := false,
          reparsePointsAccessCheck := true, namedStreams := true,
          readOnlyVolume := true, postCleanupWhenModifiedOnly := false,
          passQueryDirectoryFileName := false, deviceControl := false,
          directoryMarkerAsNextOffset := false, sectorSize := 512,
          sectorsPerAllocationUnit := 8 }).1 = .success ∧
    (FuseDeviceInit
        { ioqCreate := .success, cacheCreate := fun _ => .other 3221225473,
          postInit := .success }
        { caseSensitiveSearch := false, casePreservedNames := false,
          persistentAcls := false, reparsePoints := false,
          reparsePointsAccessCheck := true, namedStreams := true,
          readOnlyVolume := true, postCleanupWhenModifiedOnly := false,
          passQueryDirectoryFileName := false, deviceControl := false,
          directoryMarkerAsNextOffset := false, sectorSize := 512,
          sectorsPerAllocationUnit := 8 }).2.2 =
      [.ioqCreated, .ioqDeleted] :=
  ⟨((device_init_spec
      { ioqCreate := .success, cacheCreate := fun _ => .success,
        postInit := .success }
      { caseSensitiveSearch := false, casePreservedNames := false,
        persistentAcls := false, reparsePoints := false,
        reparsePointsAccessCheck := true, namedStreams := true,
        readOnlyVolume := true, postCleanupWhenModifiedOnly := false,
        passQueryDirectoryFileName := false, deviceControl := false,
        directoryMarkerAsNextOffset := false, sectorSize := 512,
        sectorsPerAllocationUnit := 8 }).2.1 (by decide) (by decide)
      (by decide)).1,
   ((device_init_spec
      { ioqCreate := .success, cacheCreate := fun _ => .other 3221225473,
        postInit := .success }
      { caseSensitiveSearch := false, casePreservedNames := false,
        persistentAcls := false, reparsePoints := false,
        reparsePointsAccessCheck := true, namedStreams := true,
        readOnlyVolume := true, postCleanupWhenModifiedOnly := false,
        passQueryDirectoryFileName := false, deviceControl := false,
        directoryMarkerAsNextOffset := false, sectorSize := 512,
        sectorsPerAllocationUnit := 8 }).2.2.2.1 (by decide) (by decide)).2⟩

end WinFuse
